import Mathlib

/-
Shallow embedding of the `universal-time` library (src/src/instant.rs,
src/src/system.rs, src/src/global.rs).

`core::time::Duration` is the external representation both value types wrap.
A Rust `Duration` is a pair (secs : u64, nanos : u32 with nanos < 10^9); all
of its arithmetic used here (saturating_sub, checked_sub, checked_add, `-`,
comparison) behaves exactly as arithmetic on the total nanosecond count,
which is bounded by u64::MAX * 10^9 + (10^9 - 1).  We therefore embed a
`Duration` as that total nanosecond count together with the bound.
-/

namespace UniversalTime

/-- Nanoseconds per second, the sub-second resolution of `core::time::Duration`. -/
def nanosPerSec : Nat := 1000000000

/-- Total nanoseconds of `Duration::MAX`: `u64::MAX` seconds plus `10^9 - 1` nanoseconds. -/
def durationMaxNanos : Nat := 18446744073709551615 * nanosPerSec + (nanosPerSec - 1)

/-- Embedding of `core::time::Duration` as its total nanosecond count. -/
structure Duration where
  nanos : Nat
  le_max : nanos ≤ durationMaxNanos

theorem Duration.ext_nanos {a b : Duration} (h : a.nanos = b.nanos) : a = b := by
  cases a
  cases b
  simp only at h
  subst h
  rfl

instance : DecidableEq Duration := fun a b =>
  decidable_of_iff (a.nanos = b.nanos) ⟨Duration.ext_nanos, fun h => by rw [h]⟩

instance : LE Duration := ⟨fun a b => a.nanos ≤ b.nanos⟩

instance : LT Duration := ⟨fun a b => a.nanos < b.nanos⟩

instance (a b : Duration) : Decidable (a ≤ b) :=
  inferInstanceAs (Decidable (a.nanos ≤ b.nanos))

instance (a b : Duration) : Decidable (a < b) :=
  inferInstanceAs (Decidable (a.nanos < b.nanos))

/-- `Duration::ZERO`. -/
def Duration.zero : Duration := ⟨0, Nat.zero_le _⟩

/-- `Duration::MAX`. -/
def Duration.max : Duration := ⟨durationMaxNanos, Nat.le_refl _⟩

/-- `Duration::from_nanos(1)`: one nanosecond. -/
def Duration.oneNanosecond : Duration := ⟨1, by decide⟩

/-- `Duration::saturating_sub`: truncated subtraction, zero instead of underflow. -/
def Duration.saturating_sub (a b : Duration) : Duration :=
  ⟨a.nanos - b.nanos, Nat.le_trans (Nat.sub_le _ _) a.le_max⟩

/-- `Duration::checked_sub`: `None` exactly on underflow. -/
def Duration.checked_sub (a b : Duration) : Option Duration :=
  if _h : b.nanos ≤ a.nanos then
    some ⟨a.nanos - b.nanos, Nat.le_trans (Nat.sub_le _ _) a.le_max⟩
  else
    none

/-- `Duration::checked_add`: `None` exactly on overflow past `Duration::MAX`. -/
def Duration.checked_add (a b : Duration) : Option Duration :=
  if h : a.nanos + b.nanos ≤ durationMaxNanos then
    some ⟨a.nanos + b.nanos, h⟩
  else
    none

/-- The `-` operator of `Duration`; the library only applies it where the
source has already checked `b <= a`, so the truncated difference is exact there. -/
def Duration.sub (a b : Duration) : Duration :=
  ⟨a.nanos - b.nanos, Nat.le_trans (Nat.sub_le _ _) a.le_max⟩

/-- src/src/instant.rs: `struct Instant { ticks: Duration }`. -/
structure Instant where
  ticks : Duration

theorem Instant.ext_ticks {a b : Instant} (h : a.ticks = b.ticks) : a = b := by
  cases a
  cases b
  simp only at h
  subst h
  rfl

instance : DecidableEq Instant := fun a b =>
  decidable_of_iff (a.ticks = b.ticks) ⟨Instant.ext_ticks, fun h => by rw [h]⟩

/-- The derived `Ord` of `Instant` is lexicographic on its single `Duration`
field, hence the order of the underlying ticks. -/
instance : LE Instant := ⟨fun a b => a.ticks ≤ b.ticks⟩

instance : LT Instant := ⟨fun a b => a.ticks < b.ticks⟩

instance (a b : Instant) : Decidable (a ≤ b) :=
  inferInstanceAs (Decidable (a.ticks ≤ b.ticks))

instance (a b : Instant) : Decidable (a < b) :=
  inferInstanceAs (Decidable (a.ticks < b.ticks))

/-- `Instant::from_ticks`. -/
def Instant.from_ticks (ticks : Duration) : Instant := ⟨ticks⟩

/-- `Instant::to_ticks`. -/
def Instant.to_ticks (i : Instant) : Duration := i.ticks

/-- `Instant::duration_since`: `self.ticks.saturating_sub(earlier.ticks)`. -/
def Instant.duration_since (i earlier : Instant) : Duration :=
  i.ticks.saturating_sub earlier.ticks

/-- `Instant::checked_duration_since`: `self.ticks.checked_sub(earlier.ticks)`. -/
def Instant.checked_duration_since (i earlier : Instant) : Option Duration :=
  i.ticks.checked_sub earlier.ticks

/-- `Instant::checked_add`: `self.ticks.checked_add(duration).map(Self::from_ticks)`. -/
def Instant.checked_add (i : Instant) (duration : Duration) : Option Instant :=
  (i.ticks.checked_add duration).map Instant.from_ticks

/-- `Instant::checked_sub`: `self.ticks.checked_sub(duration).map(Self::from_ticks)`. -/
def Instant.checked_sub (i : Instant) (duration : Duration) : Option Instant :=
  (i.ticks.checked_sub duration).map Instant.from_ticks

/-- The message of the `expect` in `impl Add<Duration> for Instant`. -/
def overflowAddMsg : String := "overflow while adding Duration to Instant"

/-- The message of the `expect` in `impl Sub<Duration> for Instant`. -/
def underflowSubMsg : String := "underflow while subtracting Duration from Instant"

/-- `impl Add<Duration> for Instant`: `checked_add(other).expect(...)`; the
panic is embedded as `Except.error` carrying the panic message. -/
def Instant.add (i : Instant) (other : Duration) : Except String Instant :=
  match i.checked_add other with
  | some r => Except.ok r
  | none => Except.error overflowAddMsg

/-- `impl Sub<Duration> for Instant`: `checked_sub(other).expect(...)`; the
panic is embedded as `Except.error` carrying the panic message. -/
def Instant.sub (i : Instant) (other : Duration) : Except String Instant :=
  match i.checked_sub other with
  | some r => Except.ok r
  | none => Except.error underflowSubMsg

/-- `impl Sub<Instant> for Instant`: `self.duration_since(other)`. -/
def Instant.sub_instant (i other : Instant) : Duration :=
  i.duration_since other

/-- src/src/system.rs: `struct SystemTime { since_unix_epoch: Duration }`. -/
structure SystemTime where
  since_unix_epoch : Duration

theorem SystemTime.ext_epoch {a b : SystemTime} (h : a.since_unix_epoch = b.since_unix_epoch) :
    a = b := by
  cases a
  cases b
  simp only at h
  subst h
  rfl

instance : DecidableEq SystemTime := fun a b =>
  decidable_of_iff (a.since_unix_epoch = b.since_unix_epoch)
    ⟨SystemTime.ext_epoch, fun h => by rw [h]⟩

instance : LE SystemTime := ⟨fun a b => a.since_unix_epoch ≤ b.since_unix_epoch⟩

instance : LT SystemTime := ⟨fun a b => a.since_unix_epoch < b.since_unix_epoch⟩

instance (a b : SystemTime) : Decidable (a ≤ b) :=
  inferInstanceAs (Decidable (a.since_unix_epoch ≤ b.since_unix_epoch))

instance (a b : SystemTime) : Decidable (a < b) :=
  inferInstanceAs (Decidable (a.since_unix_epoch < b.since_unix_epoch))

/-- `SystemTime::from_unix_duration`. -/
def SystemTime.from_unix_duration (since_unix_epoch : Duration) : SystemTime :=
  ⟨since_unix_epoch⟩

/-- `SystemTime::as_unix_duration`. -/
def SystemTime.as_unix_duration (s : SystemTime) : Duration := s.since_unix_epoch

/-- `UNIX_EPOCH`. -/
def UNIX_EPOCH : SystemTime := SystemTime.from_unix_duration Duration.zero

/-- `SystemTime::duration_since`: forward difference as `Ok`, otherwise the
reverse difference as `Err`; `Result<Duration, Duration>` becomes
`Except Duration Duration` with `Err` as `Except.error`. -/
def SystemTime.duration_since (s earlier : SystemTime) : Except Duration Duration :=
  if earlier.since_unix_epoch ≤ s.since_unix_epoch then
    Except.ok (s.since_unix_epoch.sub earlier.since_unix_epoch)
  else
    Except.error (earlier.since_unix_epoch.sub s.since_unix_epoch)

/-
src/src/global.rs: capability traits and the set-once registration slot.

A `&'static dyn TimeContext` is an opaque reference; the embedding keeps it
abstract as a value of a type parameter `α`.  A trait object's per-call reads
(`MonotonicClock::instant`, `WallClock::system_time`, both returning
`Option`) are modelled as the two readings the object would currently yield.
-/

/-- Model of an object implementing the `TimeContext` trait
(`WallClock + MonotonicClock + Send + Sync`): the `Option`-valued readings
its two capability methods yield. -/
structure TimeContext where
  instant : Option Instant
  system_time : Option SystemTime

/-- `struct GlobalTimeContextAlreadySet`, the error of a second registration. -/
inductive GlobalTimeContextAlreadySet where
  | mk

instance : DecidableEq GlobalTimeContextAlreadySet := fun a b => by
  cases a
  cases b
  exact isTrue rfl

/-- State of `NoStdGlobalTimeContext`: the `AtomicU8` state word and the
`UnsafeCell<Option<&'static dyn TimeContext>>` value, as a passed-around
record.  `α` stands for `&'static dyn TimeContext`. -/
structure NoStdGlobalTimeContext (α : Type) where
  state : Nat
  value : Option α

namespace NoStdGlobalTimeContext

/-- `NoStdGlobalTimeContext::UNINITIALIZED`. -/
def UNINITIALIZED : Nat := 0

/-- `NoStdGlobalTimeContext::INITIALIZING`. -/
def INITIALIZING : Nat := 1

/-- `NoStdGlobalTimeContext::READY`. -/
def READY : Nat := 2

/-- `NoStdGlobalTimeContext::new()`: the slot starts empty. -/
def new {α : Type} : NoStdGlobalTimeContext α :=
  { state := UNINITIALIZED, value := none }

/-- `NoStdGlobalTimeContext::set`, sequentially: the `compare_exchange` from
`UNINITIALIZED` to `INITIALIZING` succeeds exactly when the state is
`UNINITIALIZED`; the winner writes the value and stores `READY`.  The
transient `INITIALIZING` window and the loser's bounded spin-wait are
internal to the call, so a whole call collapses to one state transition. -/
def set {α : Type} (s : NoStdGlobalTimeContext α) (context : α) :
    Except GlobalTimeContextAlreadySet Unit × NoStdGlobalTimeContext α :=
  if s.state = UNINITIALIZED then
    (Except.ok (), { state := READY, value := some context })
  else
    (Except.error GlobalTimeContextAlreadySet.mk, s)

/-- `NoStdGlobalTimeContext::get`, sequentially: between calls the state is
never the transient `INITIALIZING`, so the bounded spin-wait is a no-op and
the read returns the value exactly when the state is `READY`. -/
def get {α : Type} (s : NoStdGlobalTimeContext α) : Option α :=
  if s.state = READY then s.value else none

end NoStdGlobalTimeContext

/-- `set_global_time_context` (the `not(feature = "std")`, atomics-available
branch): delegates to `NoStdGlobalTimeContext::set` on the global slot,
here passed explicitly. -/
def set_global_time_context {α : Type} (s : NoStdGlobalTimeContext α) (context : α) :
    Except GlobalTimeContextAlreadySet Unit × NoStdGlobalTimeContext α :=
  s.set context

/-- `global_time_context` (the `not(feature = "std")`, atomics-available
branch): delegates to `NoStdGlobalTimeContext::get` on the global slot. -/
def global_time_context {α : Type} (s : NoStdGlobalTimeContext α) : Option α :=
  s.get

/-- Running a sequence of further `set_global_time_context` calls over the
slot state, keeping only the final state. -/
def runSets {α : Type} : NoStdGlobalTimeContext α → List α → NoStdGlobalTimeContext α
  | s, [] => s
  | s, c :: cs => runSets (set_global_time_context s c).2 cs

/-- The message of `panic_missing_instant` in src/src/global.rs. -/
def panicMissingInstantMsg : String :=
  "no monotonic clock is available; install one with universal_time::set_global_time_context()"

/-- The message of `panic_missing_system_time` in src/src/global.rs. -/
def panicMissingSystemTimeMsg : String :=
  "no wall-clock time source is available; install one with universal_time::set_global_time_context()"

/-- Modelled from the spec: `get_time_provider`, called by `Instant::now` on
builds that do not use the OS clock directly, is not present under src/
(only its callers and the panic helpers `panic_missing_instant` /
`panic_missing_system_time` are).  Following the spec's resolution order —
(a) a registered source that yields a reading, (b) a usable OS monotonic
clock, (c) fatal — the current registration reading and the optional OS
reading are explicit inputs, and the fatal panic is `Except.error` carrying
the message of `panic_missing_instant`. -/
def Instant.now (registered : Option TimeContext) (osMonotonic : Option Instant) :
    Except String Instant :=
  match registered.bind TimeContext.instant with
  | some i => Except.ok i
  | none =>
    match osMonotonic with
    | some i => Except.ok i
    | none => Except.error panicMissingInstantMsg

/-- Modelled from the spec: the wall-clock counterpart of `Instant.now`,
with the same three-tier resolution order and the fatal case carrying the
message of `panic_missing_system_time`. -/
def SystemTime.now (registered : Option TimeContext) (osWall : Option SystemTime) :
    Except String SystemTime :=
  match registered.bind TimeContext.system_time with
  | some t => Except.ok t
  | none =>
    match osWall with
    | some t => Except.ok t
    | none => Except.error panicMissingSystemTimeMsg

/-- Concrete 2-nanosecond duration, for witnesses. -/
def d2 : Duration := ⟨2, by decide⟩

/-- Concrete 3-nanosecond duration, for witnesses. -/
def d3 : Duration := ⟨3, by decide⟩

/-- Concrete 5-nanosecond duration, for witnesses. -/
def d5 : Duration := ⟨5, by decide⟩

/-- Concrete 7-nanosecond duration, for witnesses. -/
def d7 : Duration := ⟨7, by decide⟩

/-- Concrete 10-second duration, for witnesses. -/
def d10 : Duration := ⟨10 * nanosPerSec, by decide⟩

/-- Concrete 12-second duration, for witnesses. -/
def d12 : Duration := ⟨12 * nanosPerSec, by decide⟩

/-- C8: for every duration d, `from_ticks(d).to_ticks() == d` and
`from_unix_duration(d).as_unix_duration() == d`. -/
theorem c8_roundtrip (d : Duration) :
    (Instant.from_ticks d).to_ticks = d
      ∧ (SystemTime.from_unix_duration d).as_unix_duration = d :=
  ⟨rfl, rfl⟩

/-- C3: `duration_since` is the saturating subtraction of ticks — zero when
`self` is before `earlier`, the exact difference otherwise — and the
`Instant - Instant` operator returns the same value. -/
theorem c3_duration_since_saturating (a b : Instant) :
    (a < b → a.duration_since b = Duration.zero)
      ∧ (b ≤ a → (a.duration_since b).nanos + b.to_ticks.nanos = a.to_ticks.nanos)
      ∧ a.sub_instant b = a.duration_since b := by
  refine ⟨fun h => ?_, fun h => ?_, rfl⟩
  · exact Duration.ext_nanos (Nat.sub_eq_zero_of_le (Nat.le_of_lt h))
  · exact Nat.sub_add_cancel h

/-- Witness for C3 at ticks 3 and 5 nanoseconds. -/
theorem c3_witness :
    (Instant.from_ticks d3).duration_since (Instant.from_ticks d5) = Duration.zero
      ∧ ((Instant.from_ticks d5).duration_since (Instant.from_ticks d3)).nanos
          + (Instant.from_ticks d3).to_ticks.nanos
        = (Instant.from_ticks d5).to_ticks.nanos :=
  ⟨(c3_duration_since_saturating (Instant.from_ticks d3) (Instant.from_ticks d5)).1
      (by decide),
    (c3_duration_since_saturating (Instant.from_ticks d5) (Instant.from_ticks d3)).2.1
      (by decide)⟩

/-- C4: `checked_duration_since(earlier)` is `Some` iff `self >= earlier`,
and equals `duration_since` when present. -/
theorem c4_checked_duration_since_duality (a b : Instant) :
    ((a.checked_duration_since b).isSome = true ↔ b ≤ a)
      ∧ (∀ d, a.checked_duration_since b = some d → d = a.duration_since b) := by
  unfold Instant.checked_duration_since Duration.checked_sub
  by_cases h : b.ticks.nanos ≤ a.ticks.nanos
  · simp only [h, dif_pos]
    refine ⟨⟨fun _ => h, fun _ => rfl⟩, fun d hd => ?_⟩
    cases hd
    rfl
  · simp only [h, dif_neg, not_false_iff]
    exact ⟨⟨fun hc => by simp at hc, fun hc => absurd hc h⟩, fun d hd => by cases hd⟩

/-- Witness for C4 at ticks 5 and 3 nanoseconds. -/
theorem c4_witness :
    ((Instant.from_ticks d5).checked_duration_since (Instant.from_ticks d3)).isSome = true
      ∧ d2 = (Instant.from_ticks d5).duration_since (Instant.from_ticks d3) :=
  ⟨(c4_checked_duration_since_duality (Instant.from_ticks d5) (Instant.from_ticks d3)).1.mpr
      (by decide),
    (c4_checked_duration_since_duality (Instant.from_ticks d5) (Instant.from_ticks d3)).2 d2
      (by decide)⟩

/-- C5: `checked_add` is `None` exactly when the tick sum exceeds the maximum
representable duration and otherwise the exact sum; `checked_sub` is `None`
exactly when the subtrahend exceeds the ticks and otherwise the exact
difference; in particular `Duration::MAX + 1ns` and `0 - 1ns` are `None`. -/
theorem c5_checked_arithmetic_boundary (i : Instant) (d : Duration) :
    (i.checked_add d = none ↔ durationMaxNanos < i.to_ticks.nanos + d.nanos)
      ∧ (∀ r, i.checked_add d = some r → r.to_ticks.nanos = i.to_ticks.nanos + d.nanos)
      ∧ (i.checked_sub d = none ↔ i.to_ticks.nanos < d.nanos)
      ∧ (∀ r, i.checked_sub d = some r → r.to_ticks.nanos + d.nanos = i.to_ticks.nanos)
      ∧ (Instant.from_ticks Duration.max).checked_add Duration.oneNanosecond = none
      ∧ (Instant.from_ticks Duration.zero).checked_sub Duration.oneNanosecond = none := by
  refine ⟨?_, ?_, ?_, ?_, by decide, by decide⟩
  · unfold Instant.checked_add Duration.checked_add
    by_cases h : i.ticks.nanos + d.nanos ≤ durationMaxNanos
    · rw [dif_pos h]
      refine ⟨fun hc => ?_, fun hc => absurd h (Nat.not_le_of_lt hc)⟩
      exact Option.noConfusion hc
    · rw [dif_neg h]
      exact ⟨fun _ => Nat.lt_of_not_le h, fun _ => rfl⟩
  · intro r hr
    unfold Instant.checked_add Duration.checked_add at hr
    by_cases h : i.ticks.nanos + d.nanos ≤ durationMaxNanos
    · rw [dif_pos h] at hr
      injection hr with h2
      subst h2
      rfl
    · rw [dif_neg h] at hr
      exact Option.noConfusion hr
  · unfold Instant.checked_sub Duration.checked_sub
    by_cases h : d.nanos ≤ i.ticks.nanos
    · rw [dif_pos h]
      refine ⟨fun hc => ?_, fun hc => absurd h (Nat.not_le_of_lt hc)⟩
      exact Option.noConfusion hc
    · rw [dif_neg h]
      exact ⟨fun _ => Nat.lt_of_not_le h, fun _ => rfl⟩
  · intro r hr
    unfold Instant.checked_sub Duration.checked_sub at hr
    by_cases h : d.nanos ≤ i.ticks.nanos
    · rw [dif_pos h] at hr
      injection hr with h2
      subst h2
      exact Nat.sub_add_cancel h
    · rw [dif_neg h] at hr
      exact Option.noConfusion hr

/-- Witness for C5: 5ns + 2ns = 7ns and 5ns - 2ns = 3ns through the checked
operations. -/
theorem c5_witness :
    (Instant.from_ticks d7).to_ticks.nanos
        = (Instant.from_ticks d5).to_ticks.nanos + d2.nanos
      ∧ (Instant.from_ticks d3).to_ticks.nanos + d2.nanos
        = (Instant.from_ticks d5).to_ticks.nanos :=
  ⟨(c5_checked_arithmetic_boundary (Instant.from_ticks d5) d2).2.1
      (Instant.from_ticks d7) (by decide),
    (c5_checked_arithmetic_boundary (Instant.from_ticks d5) d2).2.2.2.1
      (Instant.from_ticks d3) (by decide)⟩

/-- C6: the `Instant + Duration` and `Instant - Duration` operators agree
with `checked_add` / `checked_sub` when those are `Some`, and at the
boundary they panic with the specific stable overflow / underflow
messages. -/
theorem c6_operator_consistency (i : Instant) (d : Duration) :
    (∀ r, i.checked_add d = some r → i.add d = Except.ok r)
      ∧ (i.checked_add d = none → i.add d = Except.error overflowAddMsg)
      ∧ (∀ r, i.checked_sub d = some r → i.sub d = Except.ok r)
      ∧ (i.checked_sub d = none → i.sub d = Except.error underflowSubMsg)
      ∧ overflowAddMsg = "overflow while adding Duration to Instant"
      ∧ underflowSubMsg = "underflow while subtracting Duration from Instant" := by
  refine ⟨?_, ?_, ?_, ?_, rfl, rfl⟩
  · intro r hr
    unfold Instant.add
    rw [hr]
  · intro hr
    unfold Instant.add
    rw [hr]
  · intro r hr
    unfold Instant.sub
    rw [hr]
  · intro hr
    unfold Instant.sub
    rw [hr]

/-- Witness for C6: 5ns + 2ns through the operator, and both panicking
boundary cases. -/
theorem c6_witness :
    (Instant.from_ticks d5).add d2 = Except.ok (Instant.from_ticks d7)
      ∧ (Instant.from_ticks Duration.max).add Duration.oneNanosecond
        = Except.error overflowAddMsg
      ∧ (Instant.from_ticks Duration.zero).sub Duration.oneNanosecond
        = Except.error underflowSubMsg :=
  ⟨(c6_operator_consistency (Instant.from_ticks d5) d2).1
      (Instant.from_ticks d7) (by decide),
    (c6_operator_consistency (Instant.from_ticks Duration.max) Duration.oneNanosecond).2.1
      (by decide),
    (c6_operator_consistency (Instant.from_ticks Duration.zero) Duration.oneNanosecond).2.2.2.1
      (by decide)⟩

/-- C7: `SystemTime::duration_since` returns `Ok` of the forward difference
when `self >= earlier` and `Err` of the reverse difference otherwise; when
`b` is (strictly) ahead of `a` by `k`, `b.duration_since(a) == Ok(k)` and
`a.duration_since(b) == Err(k)`. -/
theorem c7_system_duration_since (a b : SystemTime) :
    (b ≤ a → a.duration_since b
        = Except.ok (a.as_unix_duration.sub b.as_unix_duration))
      ∧ (¬ b ≤ a → a.duration_since b
        = Except.error (b.as_unix_duration.sub a.as_unix_duration))
      ∧ (∀ k : Duration,
          b.as_unix_duration.nanos = a.as_unix_duration.nanos + k.nanos →
            b.duration_since a = Except.ok k)
      ∧ (∀ k : Duration, 0 < k.nanos →
          b.as_unix_duration.nanos = a.as_unix_duration.nanos + k.nanos →
            a.duration_since b = Except.error k) := by
  refine ⟨fun h => ?_, fun h => ?_, fun k hk => ?_, fun k hk0 hk => ?_⟩
  · unfold SystemTime.duration_since
    rw [if_pos (show b.since_unix_epoch ≤ a.since_unix_epoch from h)]
    rfl
  · unfold SystemTime.duration_since
    rw [if_neg (show ¬ b.since_unix_epoch ≤ a.since_unix_epoch from h)]
    rfl
  · unfold SystemTime.duration_since
    have hle : a.since_unix_epoch ≤ b.since_unix_epoch := by
      show a.since_unix_epoch.nanos ≤ b.since_unix_epoch.nanos
      unfold SystemTime.as_unix_duration at hk
      omega
    rw [if_pos hle]
    refine congrArg Except.ok (Duration.ext_nanos ?_)
    unfold SystemTime.as_unix_duration at hk
    show b.since_unix_epoch.nanos - a.since_unix_epoch.nanos = k.nanos
    omega
  · unfold SystemTime.duration_since
    have hnle : ¬ b.since_unix_epoch ≤ a.since_unix_epoch := by
      show ¬ b.since_unix_epoch.nanos ≤ a.since_unix_epoch.nanos
      unfold SystemTime.as_unix_duration at hk
      omega
    rw [if_neg hnle]
    refine congrArg Except.error (Duration.ext_nanos ?_)
    unfold SystemTime.as_unix_duration at hk
    show b.since_unix_epoch.nanos - a.since_unix_epoch.nanos = k.nanos
    omega

/-- Witness for C7: the 10s / 12s scenario gives `Ok(2s)` forward and
`Err(2s)` backward. -/
theorem c7_witness :
    (SystemTime.from_unix_duration d12).duration_since (SystemTime.from_unix_duration d10)
        = Except.ok (Duration.sub d12 d10)
      ∧ (SystemTime.from_unix_duration d10).duration_since (SystemTime.from_unix_duration d12)
        = Except.error (Duration.sub d12 d10) :=
  ⟨(c7_system_duration_since (SystemTime.from_unix_duration d10)
        (SystemTime.from_unix_duration d12)).2.2.1 (Duration.sub d12 d10) (by decide),
    (c7_system_duration_since (SystemTime.from_unix_duration d10)
        (SystemTime.from_unix_duration d12)).2.2.2 (Duration.sub d12 d10)
      (by decide) (by decide)⟩

/-- C9: equality and ordering of `Instant` and `SystemTime` coincide with
those of the wrapped durations, and the constructors are order-preserving
bijections from durations. -/
theorem c9_order_coincides :
    (∀ a b : Instant, (a = b ↔ a.to_ticks = b.to_ticks)
        ∧ (a ≤ b ↔ a.to_ticks ≤ b.to_ticks))
      ∧ (∀ a b : SystemTime, (a = b ↔ a.as_unix_duration = b.as_unix_duration)
        ∧ (a ≤ b ↔ a.as_unix_duration ≤ b.as_unix_duration))
      ∧ Function.Bijective Instant.from_ticks
      ∧ Function.Bijective SystemTime.from_unix_duration
      ∧ (∀ d e : Duration, d ≤ e ↔ Instant.from_ticks d ≤ Instant.from_ticks e)
      ∧ (∀ d e : Duration,
          d ≤ e ↔ SystemTime.from_unix_duration d ≤ SystemTime.from_unix_duration e) := by
  refine ⟨fun a b => ⟨⟨fun h => by rw [h], fun h => Instant.ext_ticks h⟩, Iff.rfl⟩,
    fun a b => ⟨⟨fun h => by rw [h], fun h => SystemTime.ext_epoch h⟩, Iff.rfl⟩,
    ⟨fun d e h => congrArg Instant.to_ticks h, fun i => ⟨i.to_ticks, rfl⟩⟩,
    ⟨fun d e h => congrArg SystemTime.as_unix_duration h, fun s => ⟨s.as_unix_duration, rfl⟩⟩,
    fun d e => Iff.rfl, fun d e => Iff.rfl⟩

/-- C10: `SystemTime::duration_since` never returns `Err(Duration::ZERO)`:
equal times give `Ok(ZERO)`, and every `Err(k)` has `k` strictly positive. -/
theorem c10_err_never_zero (a b : SystemTime) :
    (a = b → a.duration_since b = Except.ok Duration.zero)
      ∧ (∀ k, a.duration_since b = Except.error k → Duration.zero < k)
      ∧ a.duration_since b ≠ Except.error Duration.zero := by
  have herr : ∀ k, a.duration_since b = Except.error k → Duration.zero < k := by
    intro k hk
    unfold SystemTime.duration_since at hk
    by_cases h : b.since_unix_epoch ≤ a.since_unix_epoch
    · rw [if_pos h] at hk
      exact Except.noConfusion hk
    · rw [if_neg h] at hk
      injection hk with h2
      subst h2
      have hlt : a.since_unix_epoch.nanos < b.since_unix_epoch.nanos :=
        Nat.lt_of_not_le h
      show 0 < b.since_unix_epoch.nanos - a.since_unix_epoch.nanos
      omega
  refine ⟨fun h => ?_, herr, fun h => ?_⟩
  · subst h
    unfold SystemTime.duration_since
    rw [if_pos (show a.since_unix_epoch ≤ a.since_unix_epoch from Nat.le_refl _)]
    refine congrArg Except.ok (Duration.ext_nanos ?_)
    show a.since_unix_epoch.nanos - a.since_unix_epoch.nanos = 0
    omega
  · exact absurd (herr Duration.zero h) (by decide)

/-- Witness for C10 at the 10s timestamp compared with itself. -/
theorem c10_witness :
    (SystemTime.from_unix_duration d10).duration_since (SystemTime.from_unix_duration d10)
      = Except.ok Duration.zero :=
  (c10_err_never_zero (SystemTime.from_unix_duration d10)
    (SystemTime.from_unix_duration d10)).1 rfl

/-- A slot whose state is no longer `UNINITIALIZED` is never changed by any
further sequence of `set_global_time_context` calls. -/
theorem runSets_fixed {α : Type} (cs : List α) (s : NoStdGlobalTimeContext α)
    (h : s.state ≠ NoStdGlobalTimeContext.UNINITIALIZED) : runSets s cs = s := by
  induction cs generalizing s with
  | nil => rfl
  | cons c cs ih =>
    have hset : (set_global_time_context s c).2 = s := by
      unfold set_global_time_context NoStdGlobalTimeContext.set
      rw [if_neg h]
    show runSets (set_global_time_context s c).2 cs = s
    rw [hset]
    exact ih s h

/-- C2: the registration slot starts empty, the first
`set_global_time_context` succeeds and stores its argument permanently, and
every subsequent call — after any number of intervening failed calls —
returns `GlobalTimeContextAlreadySet`, leaves the slot unchanged, and
`global_time_context` keeps returning the first context. -/
theorem c2_set_once {α : Type} (c c' : α) (cs : List α) :
    global_time_context (NoStdGlobalTimeContext.new : NoStdGlobalTimeContext α) = none
      ∧ (set_global_time_context (NoStdGlobalTimeContext.new : NoStdGlobalTimeContext α)
          c).1 = Except.ok ()
      ∧ global_time_context
          (set_global_time_context (NoStdGlobalTimeContext.new : NoStdGlobalTimeContext α)
            c).2 = some c
      ∧ (set_global_time_context
          (runSets
            (set_global_time_context (NoStdGlobalTimeContext.new : NoStdGlobalTimeContext α)
              c).2 cs) c').1 = Except.error GlobalTimeContextAlreadySet.mk
      ∧ (set_global_time_context
          (runSets
            (set_global_time_context (NoStdGlobalTimeContext.new : NoStdGlobalTimeContext α)
              c).2 cs) c').2
        = runSets
            (set_global_time_context (NoStdGlobalTimeContext.new : NoStdGlobalTimeContext α)
              c).2 cs
      ∧ global_time_context
          (runSets
            (set_global_time_context (NoStdGlobalTimeContext.new : NoStdGlobalTimeContext α)
              c).2 cs) = some c := by
  have hrun :
      runSets
          (set_global_time_context (NoStdGlobalTimeContext.new : NoStdGlobalTimeContext α)
            c).2 cs
        = (set_global_time_context (NoStdGlobalTimeContext.new : NoStdGlobalTimeContext α)
            c).2 := by
    have hstate :
        (set_global_time_context (NoStdGlobalTimeContext.new : NoStdGlobalTimeContext α)
            c).2.state = NoStdGlobalTimeContext.READY := rfl
    refine runSets_fixed cs _ ?_
    rw [hstate]
    decide
  refine ⟨rfl, rfl, rfl, ?_, ?_, ?_⟩
  · rw [hrun]
    rfl
  · rw [hrun]
    rfl
  · rw [hrun]
    rfl

set_option maxRecDepth 16384 in
/-- C1: on a build that does not use the OS clock directly, `Instant::now`
(and likewise `SystemTime::now`) returns the reading yielded by the
registered global clock source when there is one; otherwise it uses the OS
clock when one is usable; otherwise it terminates fatally with a message
that names the missing capability (monotonic vs wall-clock) and points to
`set_global_time_context`. -/
theorem c1_now_resolution_order (registered : Option TimeContext)
    (osMonotonic : Option Instant) (osWall : Option SystemTime) :
    (∀ i, registered.bind TimeContext.instant = some i →
        Instant.now registered osMonotonic = Except.ok i)
      ∧ (registered.bind TimeContext.instant = none →
          ∀ i, osMonotonic = some i → Instant.now registered osMonotonic = Except.ok i)
      ∧ (registered.bind TimeContext.instant = none → osMonotonic = none →
          Instant.now registered osMonotonic = Except.error panicMissingInstantMsg)
      ∧ (∀ t, registered.bind TimeContext.system_time = some t →
          SystemTime.now registered osWall = Except.ok t)
      ∧ (registered.bind TimeContext.system_time = none →
          ∀ t, osWall = some t → SystemTime.now registered osWall = Except.ok t)
      ∧ (registered.bind TimeContext.system_time = none → osWall = none →
          SystemTime.now registered osWall = Except.error panicMissingSystemTimeMsg)
      ∧ List.IsInfix "monotonic".toList panicMissingInstantMsg.toList
      ∧ List.IsInfix "set_global_time_context".toList panicMissingInstantMsg.toList
      ∧ List.IsInfix "wall-clock".toList panicMissingSystemTimeMsg.toList
      ∧ List.IsInfix "set_global_time_context".toList panicMissingSystemTimeMsg.toList := by
  refine ⟨?_, ?_, ?_, ?_, ?_, ?_, by decide, by decide, by decide, by decide⟩
  · intro i h
    unfold Instant.now
    rw [h]
  · intro h i hos
    unfold Instant.now
    rw [h, hos]
  · intro h hos
    unfold Instant.now
    rw [h, hos]
  · intro t h
    unfold SystemTime.now
    rw [h]
  · intro h t hos
    unfold SystemTime.now
    rw [h, hos]
  · intro h hos
    unfold SystemTime.now
    rw [h, hos]

/-- Witness for C1: a registered source's 3ns reading is returned, and with
no source and no OS clock the fatal monotonic and wall-clock messages are
produced. -/
theorem c1_witness :
    Instant.now (some ⟨some (Instant.from_ticks d3), none⟩) none
        = Except.ok (Instant.from_ticks d3)
      ∧ Instant.now none none = Except.error panicMissingInstantMsg
      ∧ SystemTime.now none none = Except.error panicMissingSystemTimeMsg :=
  ⟨(c1_now_resolution_order (some ⟨some (Instant.from_ticks d3), none⟩) none none).1
      (Instant.from_ticks d3) rfl,
    (c1_now_resolution_order none none none).2.2.1 rfl rfl,
    (c1_now_resolution_order none none none).2.2.2.2.2.1 rfl rfl⟩

end UniversalTime
